import Mathlib

set_option linter.unusedVariables false

/-!
Shallow embedding of `training/loss.py` from the styleposegan repository.

Tensors are modelled over `ℚ`:
  * a 1-D tensor (latent codes, labels, per-sample logits) is a `Vec := List ℚ`;
  * an image batch of shape `[B, C, H, W]` is an `Image := List (List (List ℚ))`
    (batch × channel × flattened spatial positions);
  * the style tensor `ws` of shape `[B, num_ws, w_dim]` is a
    `WsT := List (List (List ℚ))` (batch × num_ws × w_dim).

External collaborators (the mapping network, synthesis network, appearance
encoder `ANet`, discriminator, torchvision's pretrained VGG16 feature slices,
`torch.nn.functional.interpolate`, `torch.nn.functional.softplus` and
`torch.autograd.grad`) are abstract oracle functions carried in structures;
random draws (`random_`, `rand`, `randn_like`) are explicit inputs.  Device
placement (`.cuda()`), profiler scopes and DDP synchronisation are value-level
no-ops and are not modelled.  Effects observable from this file — the
`training_stats.report` calls and the scalar values fed to `.backward()` —
are returned explicitly in the output of `accumulate_gradients`.
-/

namespace StylePoseGAN

abbrev Vec := List ℚ

abbrev Image := List (List (List ℚ))

abbrev WsT := List (List (List ℚ))

/-- Elementwise sum of two same-shaped 1-D tensors (`+` on logits). -/
def vadd (a b : Vec) : Vec := List.zipWith (· + ·) a b

/-- Embedding of `Tensor.mean()` on a 1-D tensor. -/
def vmean (v : Vec) : ℚ := v.sum / v.length

/-- Embedding of `Tensor.sign()` applied elementwise. -/
def qsign (q : ℚ) : ℚ := if q < 0 then -1 else if q = 0 then 0 else 1

/-- Elementwise sum of two same-shaped image batches. -/
def imgAdd (a b : Image) : Image :=
  List.zipWith (fun s t => List.zipWith (fun ch dh => List.zipWith (· + ·) ch dh) s t) a b

/-- Flatten an image batch to the list of all its entries. -/
def flatImage (x : Image) : List ℚ := (x.map List.flatten).flatten

/-- Embedding of `torch.nn.functional.l1_loss(x, y)`: mean of elementwise absolute
differences (default reduction `mean`). -/
def l1_loss (x y : Image) : ℚ :=
  let d := List.zipWith (fun a b => |a - b|) (flatImage x) (flatImage y)
  d.sum / d.length

/-- Embedding of `tensor.shape[1]` of a batch-major tensor (number of entries per batch
row; channel count of an `Image`, `num_ws` of a `WsT`). -/
def shape1 (x : List (List (List ℚ))) : ℕ :=
  match x with
  | [] => 0
  | s :: _ => s.length

/-- A slice of `torchvision.models.vgg16(pretrained=True).features`, as used
for the perceptual loss: an abstract forward function together with the
framework-level module state this file manipulates (`requires_grad` of each
parameter, and train/eval mode). -/
structure VGGBlock where
  f : Image → Image
  paramsRequiresGrad : List Bool
  training : Bool

/-- Embedding of `module.eval()`: puts the module in evaluation mode. -/
def VGGBlock.evalMode (b : VGGBlock) : VGGBlock := { b with training := false }

/-- The loop `for p in bl.parameters(): p.requires_grad = False`. -/
def VGGBlock.freezeParams (b : VGGBlock) : VGGBlock :=
  { b with paramsRequiresGrad := b.paramsRequiresGrad.map (fun _ => false) }

/-- Ambient ML-framework facilities used by `training/loss.py`, modelled as
deterministic oracles: the four pretrained VGG16 feature slices
(`features[:4]`, `features[4:9]`, `features[9:16]`, `features[16:23]`),
bilinear `interpolate` to 224×224, `softplus`, and `torch.autograd.grad`
of `real_logits.sum()` with respect to each of the two real-image inputs
(as a function of the two real images and the label). -/
structure Framework where
  features0 : VGGBlock
  features1 : VGGBlock
  features2 : VGGBlock
  features3 : VGGBlock
  interpolate224 : Image → Image
  softplus : ℚ → ℚ
  gradRealSumWrtT : Image → Image → Vec → Image
  gradRealSumWrtS : Image → Image → Vec → Image

/-- The `VGGPerceptualLoss` module after `__init__`. -/
structure VGGPerceptualLoss where
  blocks : List VGGBlock
  transform : Image → Image
  resize : Bool
  mean : List ℚ
  std : List ℚ

/-- Embedding of `VGGPerceptualLoss.__init__(resize)`: collects the four pretrained VGG16
feature slices, puts each in eval mode, freezes every parameter, and registers
the ImageNet normalisation constants. -/
def VGGPerceptualLoss.init (fw : Framework) (resize : Bool := true) : VGGPerceptualLoss :=
  { blocks := ([fw.features0.evalMode, fw.features1.evalMode,
                fw.features2.evalMode, fw.features3.evalMode]).map VGGBlock.freezeParams
    transform := fw.interpolate224
    resize := resize
    mean := [0.485, 0.456, 0.406]
    std := [0.229, 0.224, 0.225] }

/-- Embedding of `input.shape[1]`: the channel count of an image batch. -/
def channelCount (x : Image) : ℕ := shape1 x

/-- Embedding of `img.repeat(1, 3, 1, 1)`: repeats the channel dimension three times. -/
def repeatCh3 (x : Image) : Image := x.map (fun s => s ++ s ++ s)

/-- Embedding of `(img - mean) / std` with `mean`, `std` of shape `(1, 3, 1, 1)`:
per-channel normalisation broadcast over batch and spatial dimensions. -/
def normalizeImg (mean std : List ℚ) (x : Image) : Image :=
  x.map (fun s => List.zipWith (fun ch ms => ch.map (fun v => (v - ms.1) / ms.2)) s (List.zip mean std))

/-- Embedding of `act.reshape(B, C, -1) @ act.permute(0, 2, 1)`: a batch of C×C Gram
matrices of per-channel activation dot products. -/
def gramMatrix (x : Image) : Image :=
  x.map (fun s => s.map (fun ci => s.map (fun cj => (List.zipWith (· * ·) ci cj).sum)))

/-- The `for i, block in enumerate(self.blocks)` loop of
`VGGPerceptualLoss.forward`, threading the running activations and loss. -/
def vggLoop (blocks : List VGGBlock) (i : ℕ) (feature_layers style_layers : List ℕ)
    (x y : Image) (loss : ℚ) : ℚ :=
  match blocks with
  | [] => loss
  | b :: rest =>
      let x := b.f x
      let y := b.f y
      let loss := if i ∈ feature_layers then loss + l1_loss x y else loss
      let loss := if i ∈ style_layers then loss + l1_loss (gramMatrix x) (gramMatrix y) else loss
      vggLoop rest (i + 1) feature_layers style_layers x y loss

/-- Embedding of `VGGPerceptualLoss.forward(input, target, feature_layers, style_layers)`. -/
def VGGPerceptualLoss.forward (m : VGGPerceptualLoss) (input target : Image)
    (feature_layers : List ℕ := [0, 1, 2, 3]) (style_layers : List ℕ := []) : ℚ :=
  let (input, target) :=
    if channelCount input ≠ 3 then (repeatCh3 input, repeatCh3 target) else (input, target)
  let input := normalizeImg m.mean m.std input
  let target := normalizeImg m.mean m.std target
  let (input, target) :=
    if m.resize then (m.transform input, m.transform target) else (input, target)
  vggLoop m.blocks 0 feature_layers style_layers input target 0

/-- The base class `Loss` (no fields; `accumulate_gradients` is to be
overridden by a subclass). -/
structure Loss

/-- Outcomes of the random draws consumed by one call to
`StyleGAN2Loss.run_G`: `cutoff0` for `torch.empty([]).random_(1, ws.shape[1])`,
`u` for `torch.rand([])`, and `z2` for `torch.randn_like(z)`. -/
structure GRng where
  cutoff0 : ℕ
  u : ℚ
  z2 : Vec

/-- The `StyleGAN2Loss` module after `__init__` (its stored constructor
arguments, the ambient framework, and `vgg_loss` / `pl_mean` built in
`__init__`).  `device` placement is not modelled. -/
structure StyleGAN2Loss where
  fw : Framework
  G_mapping : Vec → Vec → Bool → WsT
  G_synthesis : WsT → Vec → Image
  ANet : Vec → Vec
  D : Image → Vec → Vec
  augment_pipe : Option (Image → Image)
  style_mixing_prob : ℚ
  r1_gamma : ℚ
  pl_batch_shrink : ℚ
  pl_decay : ℚ
  pl_weight : ℚ
  vgg_loss : VGGPerceptualLoss
  pl_mean : ℚ
  l1_weight : ℚ

/-- Embedding of `StyleGAN2Loss.__init__` with the source's default arguments;
`G_mapping` takes `(z, c, skip_w_avg_update)`. -/
def StyleGAN2Loss.init (fw : Framework)
    (G_mapping : Vec → Vec → Bool → WsT) (G_synthesis : WsT → Vec → Image)
    (ANet : Vec → Vec) (D : Image → Vec → Vec)
    (augment_pipe : Option (Image → Image) := none)
    (style_mixing_prob : ℚ := 0.9) (r1_gamma : ℚ := 10)
    (pl_batch_shrink : ℚ := 2) (pl_decay : ℚ := 0.01) (pl_weight : ℚ := 2)
    (l1_weight : ℚ := 50) : StyleGAN2Loss :=
  { fw := fw
    G_mapping := G_mapping
    G_synthesis := G_synthesis
    ANet := ANet
    D := D
    augment_pipe := augment_pipe
    style_mixing_prob := style_mixing_prob
    r1_gamma := r1_gamma
    pl_batch_shrink := pl_batch_shrink
    pl_decay := pl_decay
    pl_weight := pl_weight
    vgg_loss := VGGPerceptualLoss.init fw
    pl_mean := 0
    l1_weight := l1_weight }

/-- The in-place slice assignment `ws[:, cutoff:] = ws2[:, cutoff:]` on a
tensor of shape `[B, num_ws, w_dim]` (requires both operands to have the same
shape, as the framework does). -/
def sliceAssignFrom (ws ws2 : WsT) (cutoff : ℕ) : WsT :=
  List.zipWith (fun r r2 => r.take cutoff ++ r2.drop cutoff) ws ws2

/-- Embedding of `StyleGAN2Loss.run_G(P, A, c, sync)` with the random draws made explicit;
`sync` only controls DDP synchronisation and does not affect values. -/
def StyleGAN2Loss.run_G (L : StyleGAN2Loss) (P A c : Vec) (sync : Bool)
    (rng : GRng) : Image × WsT :=
  let _ := sync
  let z := L.ANet A
  let ws := L.G_mapping z c false
  let ws :=
    if 0 < L.style_mixing_prob then
      let cutoff := if rng.u < L.style_mixing_prob then rng.cutoff0 else shape1 ws
      sliceAssignFrom ws (L.G_mapping rng.z2 c true) cutoff
    else ws
  (L.G_synthesis ws P, ws)

/-- Embedding of `StyleGAN2Loss.run_D(img, c, sync)`: optionally augments the image, then
applies the discriminator. -/
def StyleGAN2Loss.run_D (L : StyleGAN2Loss) (img : Image) (c : Vec)
    (sync : Bool) : Vec :=
  let _ := sync
  let img :=
    match L.augment_pipe with
    | some ap => ap img
    | none => img
  L.D img c

/-- Everything observable from one call to `accumulate_gradients`: the
`training_stats.report(name, value)` calls in order, the scalar values fed to
`.backward()` (after `.mean().mul(gain)`) in order, and the returned 5-tuple
`(loss_l1.mean(), loss_vgg.mean(), loss_Dreal.mean(), loss_Gmain.mean(),
loss_Dgen.mean())`. -/
structure AccOut where
  stats : List (String × List ℚ)
  backwards : List ℚ
  ret : ℚ × ℚ × ℚ × ℚ × ℚ

/-- Random draws for the (up to five) `run_G` calls inside
`accumulate_gradients`, in source order: two in the perceptual branch, two in
the adversarial generator branch, one in the `Dgen` branch. -/
structure AccRng where
  gp1 : GRng
  gp2 : GRng
  gm1 : GRng
  gm2 : GRng
  dg : GRng

/-- The list of phases accepted by the `assert` in
`StyleGAN2Loss.accumulate_gradients`. -/
def allPhases : List String := ["Gmain", "Greg", "Gboth", "Dmain", "Dreg", "Dboth"]

/-- The `if do_GPercep:` branch (lines 115–127): two generator runs, the two
L1 terms, the perceptual term, two stat reports and one backward call.
Returns (stats, backward scalars, loss_l1, loss_vgg). -/
def gpercepBranch (L : StyleGAN2Loss) (img_s img_t : Image)
    (ap_s pose_s pose_t gen_c : Vec) (sync : Bool) (gain : ℚ)
    (rg1 rg2 : GRng) : List (String × List ℚ) × List ℚ × ℚ × ℚ :=
  let gen_img_s := (L.run_G pose_s ap_s gen_c sync rg1).1
  let gen_img_t := (L.run_G pose_t ap_s gen_c sync rg2).1
  let loss_l1_s := |l1_loss img_s gen_img_s|
  let loss_l1_t := |l1_loss img_t gen_img_t|
  let loss_l1 := loss_l1_s + loss_l1_t
  let loss_vgg := L.vgg_loss.forward img_s gen_img_s + L.vgg_loss.forward img_s gen_img_s
  ([("Loss/G/L1_loss", [loss_l1]), ("Loss/G/Perceptual", [loss_vgg])],
   [(loss_l1 + loss_vgg) * gain], loss_l1, loss_vgg)

/-- The `if do_Gmain:` branch (lines 129–141): two generator runs, combined
fake logits, softplus generator loss, three stat reports and one backward
call.  Returns (stats, backward scalars, loss_Gmain). -/
def gmainBranch (L : StyleGAN2Loss) (ap_s pose_s pose_t gen_c : Vec)
    (sync : Bool) (gain : ℚ) (rg1 rg2 : GRng) :
    List (String × List ℚ) × List ℚ × Vec :=
  let gen_img_s := (L.run_G pose_s ap_s gen_c sync rg1).1
  let gen_img_t := (L.run_G pose_t ap_s gen_c sync rg2).1
  let gen_logits_s := L.run_D gen_img_s gen_c false
  let gen_logits_t := L.run_D gen_img_t gen_c false
  let gen_logits := vadd gen_logits_s gen_logits_t
  let loss_Gmain := gen_logits.map (fun q => L.fw.softplus (-q))
  ([("Loss/scores/fake", gen_logits), ("Loss/signs/fake", gen_logits.map qsign),
    ("Loss/G/loss", loss_Gmain)],
   [vmean loss_Gmain * gain], loss_Gmain)

/-- The `if do_Dmain:` fake-image branch (lines 145–154): one generator run,
fake logits, softplus discriminator loss on fakes, two stat reports and one
backward call.  Returns (stats, backward scalars, loss_Dgen). -/
def dgenBranch (L : StyleGAN2Loss) (ap_s pose_s gen_c : Vec) (gain : ℚ)
    (rg : GRng) : List (String × List ℚ) × List ℚ × Vec :=
  let gen_img_s := (L.run_G pose_s ap_s gen_c false rg).1
  let gen_logits := L.run_D gen_img_s gen_c false
  let loss_Dgen := gen_logits.map L.fw.softplus
  ([("Loss/scores/fake", gen_logits), ("Loss/signs/fake", gen_logits.map qsign)],
   [vmean loss_Dgen * gain], loss_Dgen)

/-- The `if do_Dmain or do_Dr1:` branch (lines 158–191): real logits on both
real images, the optional `loss_Dreal`, the optional R1 gradient penalty, and
the corresponding backward call.  Returns (stats, backward scalars,
`loss_Dreal` when computed). -/
def drealBranch (L : StyleGAN2Loss) (do_Dmain do_Dr1 : Bool) (loss_Dgen : Vec)
    (img_s img_t : Image) (real_c : Vec) (sync : Bool) (gain : ℚ) :
    List (String × List ℚ) × List ℚ × Option Vec :=
  let real_img_s_tmp := img_s
  let real_img_t_tmp := img_t
  let real_s_logits := L.run_D real_img_s_tmp real_c sync
  let real_t_logits := L.run_D real_img_t_tmp real_c sync
  let real_logits := vadd real_t_logits real_s_logits
  let stats0 := [("Loss/scores/real", real_logits),
                 ("Loss/signs/real", real_logits.map qsign)]
  let dRealPart : List (String × List ℚ) × Option Vec :=
    if do_Dmain then
      let loss_Dreal := real_logits.map (fun q => L.fw.softplus (-q))
      ([("Loss/D/loss", vadd loss_Dgen loss_Dreal)], some loss_Dreal)
    else ([], none)
  let r1Part : List (String × List ℚ) × Option Vec :=
    if do_Dr1 then
      let r1_grads_t := L.fw.gradRealSumWrtT real_img_s_tmp real_img_t_tmp real_c
      let r1_grads_s := L.fw.gradRealSumWrtS real_img_s_tmp real_img_t_tmp real_c
      let r1_grads := imgAdd r1_grads_t r1_grads_s
      let r1_penalty := r1_grads.map (fun s => (s.map (fun ch => (ch.map (fun v => v * v)).sum)).sum)
      let loss_Dr1 := r1_penalty.map (· * (L.r1_gamma / 2))
      ([("Loss/r1_penalty", r1_penalty), ("Loss/D/reg", loss_Dr1)], some loss_Dr1)
    else ([], none)
  let zeroV := real_logits.map (fun q => q * 0)
  let backScalar :=
    if do_Dmain && do_Dr1 then
      vmean (vadd (vadd zeroV (dRealPart.2.getD [])) (r1Part.2.getD [])) * gain
    else if do_Dr1 then
      vmean (vadd zeroV (r1Part.2.getD [])) * gain
    else
      vmean (vadd zeroV (dRealPart.2.getD [])) * gain
  (stats0 ++ dRealPart.1 ++ r1Part.1, [backScalar], dRealPart.2)

/-- Embedding of `StyleGAN2Loss.accumulate_gradients` (lines 106–204).  The `assert` is
modelled as `Except.error`; the four branches run according to the phase
flags; losses left at `None` are returned as `torch.Tensor([0])`, whose mean
is `0`. -/
def StyleGAN2Loss.accumulate_gradients (L : StyleGAN2Loss) (phase : String)
    (img_s img_t : Image) (ap_s ap_t pose_s pose_t real_c gen_c : Vec)
    (sync : Bool) (gain : ℚ) (rng : AccRng) : Except String AccOut :=
  if phase ∈ allPhases then
    let _ := ap_t
    let do_Gmain := decide (phase ∈ ["Gmain", "Gboth"])
    let do_Dmain := decide (phase ∈ ["Dmain", "Dboth"])
    let do_Dr1 := decide (phase ∈ ["Dreg", "Dboth"]) && decide (L.r1_gamma ≠ 0)
    let do_GPercep := decide (phase ∈ ["Gmain", "Gboth"])
    let pOut := if do_GPercep then
        some (gpercepBranch L img_s img_t ap_s pose_s pose_t gen_c sync gain rng.gp1 rng.gp2)
      else none
    let gOut := if do_Gmain then
        some (gmainBranch L ap_s pose_s pose_t gen_c sync gain rng.gm1 rng.gm2)
      else none
    let dgOut := if do_Dmain then
        some (dgenBranch L ap_s pose_s gen_c gain rng.dg)
      else none
    let drOut := if do_Dmain || do_Dr1 then
        some (drealBranch L do_Dmain do_Dr1 ((dgOut.map (fun o => o.2.2)).getD [])
          img_s img_t real_c sync gain)
      else none
    let loss_l1_m := match pOut with | some p => p.2.2.1 | none => 0
    let loss_vgg_m := match pOut with | some p => p.2.2.2 | none => 0
    let loss_Gmain_m := match gOut with | some g => vmean g.2.2 | none => 0
    let loss_Dgen_m := match dgOut with | some d => vmean d.2.2 | none => 0
    let loss_Dreal_m :=
      match drOut with
      | some d => match d.2.2 with | some v => vmean v | none => 0
      | none => 0
    Except.ok
      { stats := ((pOut.map (fun o => o.1)).getD []) ++ ((gOut.map (fun o => o.1)).getD [])
          ++ ((dgOut.map (fun o => o.1)).getD []) ++ ((drOut.map (fun o => o.1)).getD [])
        backwards := ((pOut.map (fun o => o.2.1)).getD []) ++ ((gOut.map (fun o => o.2.1)).getD [])
          ++ ((dgOut.map (fun o => o.2.1)).getD []) ++ ((drOut.map (fun o => o.2.1)).getD [])
        ret := (loss_l1_m, loss_vgg_m, loss_Dreal_m, loss_Gmain_m, loss_Dgen_m) }
  else
    Except.error "AssertionError"

/-- The base-class method `Loss.accumulate_gradients` (lines 62–64): always
raises `NotImplementedError`. -/
def Loss.accumulate_gradients (self : Loss) (phase : String)
    (img_s img_t : Image) (ap_s ap_t pose_s pose_t real_c gen_c : Vec)
    (sync : Bool) (gain : ℚ) : Except String AccOut :=
  Except.error "NotImplementedError"

/-- The values reported under a given stat name, in order. -/
def statValues (out : AccOut) (name : String) : List (List ℚ) :=
  (out.stats.filter (fun p => p.1 == name)).map Prod.snd

/-! ### Concrete instances used by the witness theorems -/

/-- A concrete stand-in for a pretrained VGG16 feature slice. -/
def testBlock : VGGBlock :=
  { f := fun x => x, paramsRequiresGrad := [true, true], training := true }

/-- A concrete framework oracle for witnesses. -/
def testFramework : Framework :=
  { features0 := testBlock
    features1 := testBlock
    features2 := testBlock
    features3 := testBlock
    interpolate224 := fun x => x
    softplus := fun q => q + 1
    gradRealSumWrtT := fun _ _ _ => [[[1, 2]]]
    gradRealSumWrtS := fun _ _ _ => [[[3, 4]]] }

/-- A concrete image augmentation for witnesses. -/
def testAug : Image → Image := fun x => x.map (fun s => s.map (fun ch => ch.map (· + 1)))

/-- A concrete `StyleGAN2Loss` instance (no augmentation, default
hyperparameters). -/
def testL : StyleGAN2Loss :=
  StyleGAN2Loss.init testFramework
    (fun z c skip => [[[z.sum], [c.sum]]])
    (fun ws P => ws)
    (fun a => a)
    (fun img c => [(flatImage img).sum])

/-- A concrete `StyleGAN2Loss` instance with an augmentation pipeline. -/
def testLaug : StyleGAN2Loss :=
  StyleGAN2Loss.init testFramework
    (fun z c skip => [[[z.sum], [c.sum]]])
    (fun ws P => ws)
    (fun a => a)
    (fun img c => [(flatImage img).sum])
    (some testAug)

/-- A concrete 1×1×2 image batch. -/
def testImg : Image := [[[2, 4]]]

/-- A second concrete 1×1×2 image batch. -/
def testImg2 : Image := [[[6, 1]]]

/-- A concrete 1×3×2 image batch (three channels). -/
def testImg3 : Image := [[[1, 2], [3, 4], [5, 6]]]

/-- A concrete latent/label vector. -/
def testVec : Vec := [1, 2]

/-- Concrete per-call random draws. -/
def testGRng : GRng := { cutoff0 := 1, u := 0, z2 := [5, 7] }

/-- A second concrete per-call random draw (mixing rejected: `u ≥ prob`). -/
def testGRng2 : GRng := { cutoff0 := 1, u := 1, z2 := [5, 7] }

/-- Concrete random draws for a whole `accumulate_gradients` call. -/
def testAccRng : AccRng :=
  { gp1 := testGRng, gp2 := testGRng, gm1 := testGRng, gm2 := testGRng, dg := testGRng }

/-- A second set of concrete draws sharing only the first one. -/
def testAccRng2 : AccRng :=
  { gp1 := testGRng, gp2 := testGRng2, gm1 := testGRng2, gm2 := testGRng2, dg := testGRng2 }

/-- A concrete mixing-friendly instance (`style_mixing_prob = 1`). -/
def testLmix : StyleGAN2Loss :=
  StyleGAN2Loss.init testFramework
    (fun z c skip => [[[z.sum], [c.sum]]])
    (fun ws P => ws)
    (fun a => a)
    (fun img c => [(flatImage img).sum])
    none 1 10 2 1 2 50

/-- A concrete instance with style mixing disabled (`style_mixing_prob = 0`). -/
def testLnomix : StyleGAN2Loss :=
  StyleGAN2Loss.init testFramework
    (fun z c skip => [[[z.sum], [c.sum]]])
    (fun ws P => ws)
    (fun a => a)
    (fun img c => [(flatImage img).sum])
    none 0 10 2 1 2 50

/-! ### Theorems -/

/-- C8: the base class `Loss.accumulate_gradients`, when not overridden,
raises `NotImplementedError` for every combination of arguments. -/
theorem loss_base_raises_not_implemented (self : Loss) (phase : String)
    (img_s img_t : Image) (ap_s ap_t pose_s pose_t real_c gen_c : Vec)
    (sync : Bool) (gain : ℚ) :
    Loss.accumulate_gradients self phase img_s img_t ap_s ap_t pose_s pose_t
      real_c gen_c sync gain = Except.error "NotImplementedError" := rfl

/-- C7: `run_D` applies the optional augmentation pipeline when present and
passes the image to the discriminator unchanged when it is `None`. -/
theorem run_D_augmentation_optional (L : StyleGAN2Loss) (img : Image)
    (c : Vec) (sync : Bool) :
    (∀ ap, L.augment_pipe = some ap → L.run_D img c sync = L.D (ap img) c) ∧
    (L.augment_pipe = none → L.run_D img c sync = L.D img c) := by
  constructor
  · intro ap h
    simp [StyleGAN2Loss.run_D, h]
  · intro h
    simp [StyleGAN2Loss.run_D, h]

/-- Witness for C7: both cases of `run_D` at concrete instances. -/
theorem run_D_augmentation_optional_witness :
    (testLaug.augment_pipe = some testAug ∧
      testLaug.run_D testImg testVec false = testLaug.D (testAug testImg) testVec) ∧
    (testL.augment_pipe = none ∧
      testL.run_D testImg testVec false = testL.D testImg testVec) :=
  ⟨⟨rfl, (run_D_augmentation_optional testLaug testImg testVec false).1 testAug rfl⟩,
   ⟨rfl, (run_D_augmentation_optional testL testImg testVec false).2 rfl⟩⟩

/-- C9: `StyleGAN2Loss.accumulate_gradients` fails with an assertion error
exactly when the phase is not one of the six accepted strings; the check is
the first action, so the error carries no reported stats, no backward calls
and no returned losses (the embedding bundles every observable effect into
the `Except.ok` result). -/
theorem accumulate_gradients_assert_iff (L : StyleGAN2Loss) (phase : String)
    (img_s img_t : Image) (ap_s ap_t pose_s pose_t real_c gen_c : Vec)
    (sync : Bool) (gain : ℚ) (rng : AccRng) :
    (L.accumulate_gradients phase img_s img_t ap_s ap_t pose_s pose_t real_c
        gen_c sync gain rng = Except.error "AssertionError")
      ↔ phase ∉ allPhases := by
  by_cases hp : phase ∈ allPhases
  · simp [StyleGAN2Loss.accumulate_gradients, hp]
  · simp [StyleGAN2Loss.accumulate_gradients, hp]

/-- C10: the stored constructor arguments `pl_batch_shrink`, `pl_decay`,
`pl_weight` and `l1_weight` have no effect: two instances differing only in
those four arguments produce identical `run_G` and `run_D` outputs and
identical `accumulate_gradients` results (same reported stats, same backward
scalars, same returned losses) on every input. -/
theorem unused_hyperparameters_no_effect (fw : Framework)
    (G_mapping : Vec → Vec → Bool → WsT) (G_synthesis : WsT → Vec → Image)
    (ANet : Vec → Vec) (D : Image → Vec → Vec)
    (augment_pipe : Option (Image → Image)) (style_mixing_prob r1_gamma : ℚ)
    (pbs pd pw lw pbs' pd' pw' lw' : ℚ)
    (P A c : Vec) (syncG : Bool) (rngG : GRng) (imgD : Image) (cD : Vec)
    (syncD : Bool) (phase : String) (img_s img_t : Image)
    (ap_s ap_t pose_s pose_t real_c gen_c : Vec) (sync : Bool) (gain : ℚ)
    (rng : AccRng) :
    (StyleGAN2Loss.init fw G_mapping G_synthesis ANet D augment_pipe
        style_mixing_prob r1_gamma pbs' pd' pw' lw').run_G P A c syncG rngG
      = (StyleGAN2Loss.init fw G_mapping G_synthesis ANet D augment_pipe
        style_mixing_prob r1_gamma pbs pd pw lw).run_G P A c syncG rngG ∧
    (StyleGAN2Loss.init fw G_mapping G_synthesis ANet D augment_pipe
        style_mixing_prob r1_gamma pbs' pd' pw' lw').run_D imgD cD syncD
      = (StyleGAN2Loss.init fw G_mapping G_synthesis ANet D augment_pipe
        style_mixing_prob r1_gamma pbs pd pw lw).run_D imgD cD syncD ∧
    (StyleGAN2Loss.init fw G_mapping G_synthesis ANet D augment_pipe
        style_mixing_prob r1_gamma pbs' pd' pw' lw').accumulate_gradients
        phase img_s img_t ap_s ap_t pose_s pose_t real_c gen_c sync gain rng
      = (StyleGAN2Loss.init fw G_mapping G_synthesis ANet D augment_pipe
        style_mixing_prob r1_gamma pbs pd pw lw).accumulate_gradients
        phase img_s img_t ap_s ap_t pose_s pose_t real_c gen_c sync gain rng :=
  ⟨rfl, rfl, rfl⟩

/-- C6: after `VGGPerceptualLoss.__init__`, the module holds exactly the four
pretrained VGG16 feature slices, every parameter of every block has
`requires_grad = False`, and every block is in eval mode.  (`forward` and
every `StyleGAN2Loss` method are pure in this file — none assigns to a module
field — so no operation re-enables the gradients or leaves eval mode.) -/
theorem vgg_blocks_frozen_after_init (fw : Framework) (resize : Bool) :
    (VGGPerceptualLoss.init fw resize).blocks.length = 4 ∧
    (VGGPerceptualLoss.init fw resize).blocks.all
      (fun b => b.paramsRequiresGrad.all (fun g => !g) && !b.training) = true := by
  refine ⟨rfl, ?_⟩
  simp [VGGPerceptualLoss.init, VGGBlock.evalMode, VGGBlock.freezeParams,
    List.all_eq_true, List.mem_map]

/-- C4: with the default arguments `feature_layers=[0,1,2,3]`,
`style_layers=[]`, `VGGPerceptualLoss.forward` on a 3-channel input returns
the sum over the four VGG16 feature blocks of the L1 distance between the
block activations of the normalised (and, when `resize` is set, 224×224
resized) input and target, with no Gram-matrix term. -/
theorem vgg_forward_default_is_feature_l1_sum (fw : Framework) (resize : Bool)
    (input target : Image) (h3 : channelCount input = 3) :
    (VGGPerceptualLoss.init fw resize).forward input target =
      (let pre : Image → Image := fun img =>
        (if resize then fw.interpolate224 else fun x => x)
          (normalizeImg [0.485, 0.456, 0.406] [0.229, 0.224, 0.225] img)
      let x1 := fw.features0.f (pre input)
      let y1 := fw.features0.f (pre target)
      let x2 := fw.features1.f x1
      let y2 := fw.features1.f y1
      let x3 := fw.features2.f x2
      let y3 := fw.features2.f y2
      let x4 := fw.features3.f x3
      let y4 := fw.features3.f y3
      l1_loss x1 y1 + l1_loss x2 y2 + l1_loss x3 y3 + l1_loss x4 y4) := by
  have h3' : ¬ channelCount input ≠ 3 := by simp [h3]
  cases resize <;>
    simp [VGGPerceptualLoss.forward, VGGPerceptualLoss.init, VGGBlock.evalMode,
      VGGBlock.freezeParams, vggLoop, h3']

/-- Witness for C4 at a concrete 3-channel image pair. -/
theorem vgg_forward_default_is_feature_l1_sum_witness :
    channelCount testImg3 = 3 ∧
    (VGGPerceptualLoss.init testFramework true).forward testImg3 testImg3 =
      (let pre : Image → Image := fun img =>
        (if true then testFramework.interpolate224 else fun x => x)
          (normalizeImg [0.485, 0.456, 0.406] [0.229, 0.224, 0.225] img)
      let x1 := testFramework.features0.f (pre testImg3)
      let y1 := testFramework.features0.f (pre testImg3)
      let x2 := testFramework.features1.f x1
      let y2 := testFramework.features1.f y1
      let x3 := testFramework.features2.f x2
      let y3 := testFramework.features2.f y2
      let x4 := testFramework.features3.f x3
      let y4 := testFramework.features3.f y3
      l1_loss x1 y1 + l1_loss x2 y2 + l1_loss x3 y3 + l1_loss x4 y4) :=
  ⟨rfl, vgg_forward_default_is_feature_l1_sum testFramework true testImg3 testImg3 rfl⟩

/-- Indexing a `zipWith` of two lists within both bounds. -/
theorem getD_zipWith_of_lt {α β γ : Type} (f : α → β → γ) (l1 : List α)
    (l2 : List β) (n : ℕ) (d1 : α) (d2 : β) (dg : γ)
    (h1 : n < l1.length) (h2 : n < l2.length) :
    (List.zipWith f l1 l2).getD n dg = f (l1.getD n d1) (l2.getD n d2) := by
  induction l1 generalizing l2 n with
  | nil => simp at h1
  | cons a l1' ih =>
      cases l2 with
      | nil => simp at h2
      | cons b l2' =>
          cases n with
          | zero => rfl
          | succ m =>
              simp only [List.zipWith_cons_cons, List.getD_cons_succ]
              exact ih l2' m (by simpa using h1) (by simpa using h2)

/-- Indexing `r.take cutoff ++ r2.drop cutoff`: positions below the cutoff
come from `r`, positions from the cutoff on come from `r2`. -/
theorem take_append_drop_getD {α : Type} (r r2 : List α) (cutoff i : ℕ)
    (hc : cutoff ≤ r.length) (d : α) :
    (cutoff ≤ i → (r.take cutoff ++ r2.drop cutoff).getD i d = r2.getD i d) ∧
    (i < cutoff → (r.take cutoff ++ r2.drop cutoff).getD i d = r.getD i d) := by
  have hlen : (r.take cutoff).length = cutoff := by
    simp [List.length_take, Nat.min_eq_left hc]
  constructor
  · intro hi
    simp only [List.getD_eq_getElem?_getD]
    rw [List.getElem?_append_right (hlen.le.trans hi)]
    rw [hlen, List.getElem?_drop, Nat.add_sub_cancel' hi]
  · intro hi
    simp only [List.getD_eq_getElem?_getD]
    rw [List.getElem?_append_left (by rw [hlen]; exact hi)]
    rw [List.getElem?_take_of_lt hi]

/-- The map `zipWith (fun r r2 => r.take n ++ r2.drop n)` is the identity on the
first list when `n` bounds every row of both lists. -/
theorem zipWith_take_drop_eq_left {α : Type} (n : ℕ) :
    ∀ (l1 l2 : List (List α)), l1.length ≤ l2.length →
      (∀ r ∈ l1, r.length ≤ n) → (∀ r ∈ l2, r.length ≤ n) →
      List.zipWith (fun r r2 => List.take n r ++ List.drop n r2) l1 l2 = l1 := by
  intro l1
  induction l1 with
  | nil => intro l2 _ _ _; simp
  | cons a l1' ih =>
      intro l2 hlen h1 h2
      cases l2 with
      | nil => simp at hlen
      | cons b l2' =>
          simp only [List.zipWith_cons_cons]
          have ha : a.length ≤ n := h1 a (List.mem_cons_self a l1')
          have hb : b.length ≤ n := h2 b (List.mem_cons_self b l2')
          rw [List.take_of_length_le ha, List.drop_eq_nil_of_le hb,
            List.append_nil]
          rw [ih l2' (by simpa using hlen)
            (fun r hr => h1 r (List.mem_cons_of_mem a hr))
            (fun r hr => h2 r (List.mem_cons_of_mem b hr))]

/-- C3: style mixing in `run_G`.  The synthesised image is produced from the
final `ws`; when `style_mixing_prob > 0` and the uniform draw falls below it,
the styles of `ws` at indices `≥ cutoff` are replaced by the mapping of a
second, independently drawn latent code (and those below the cutoff are
kept); when the draw does not fall below `style_mixing_prob`, or
`style_mixing_prob = 0`, `ws` is exactly the mapping output for the single
latent code, unchanged. -/
theorem run_G_style_mixing_cases (L : StyleGAN2Loss) (P A c : Vec)
    (sync : Bool) (rng : GRng) (b i : ℕ) :
    (L.run_G P A c sync rng).1 = L.G_synthesis (L.run_G P A c sync rng).2 P ∧
    (0 < L.style_mixing_prob → rng.u < L.style_mixing_prob →
      b < (L.G_mapping (L.ANet A) c false).length →
      b < (L.G_mapping rng.z2 c true).length →
      rng.cutoff0 ≤ ((L.G_mapping (L.ANet A) c false).getD b []).length →
        (rng.cutoff0 ≤ i →
          ((L.run_G P A c sync rng).2.getD b []).getD i [] =
            ((L.G_mapping rng.z2 c true).getD b []).getD i []) ∧
        (i < rng.cutoff0 →
          ((L.run_G P A c sync rng).2.getD b []).getD i [] =
            ((L.G_mapping (L.ANet A) c false).getD b []).getD i [])) ∧
    (0 < L.style_mixing_prob → L.style_mixing_prob ≤ rng.u →
      (L.G_mapping (L.ANet A) c false).length ≤ (L.G_mapping rng.z2 c true).length →
      (∀ r ∈ L.G_mapping (L.ANet A) c false,
        r.length ≤ shape1 (L.G_mapping (L.ANet A) c false)) →
      (∀ r ∈ L.G_mapping rng.z2 c true,
        r.length ≤ shape1 (L.G_mapping (L.ANet A) c false)) →
        (L.run_G P A c sync rng).2 = L.G_mapping (L.ANet A) c false) ∧
    (L.style_mixing_prob = 0 →
        (L.run_G P A c sync rng).2 = L.G_mapping (L.ANet A) c false) := by
  refine ⟨rfl, ?_, ?_, ?_⟩
  · intro hp hu hb hb2 hc
    have hrun : (L.run_G P A c sync rng).2 =
        sliceAssignFrom (L.G_mapping (L.ANet A) c false)
          (L.G_mapping rng.z2 c true) rng.cutoff0 := by
      simp [StyleGAN2Loss.run_G, if_pos hp, if_pos hu]
    rw [hrun, sliceAssignFrom,
      getD_zipWith_of_lt _ _ _ b [] [] [] hb hb2]
    exact take_append_drop_getD _ _ _ i hc []
  · intro hp hu hlen h1 h2
    have hrun : (L.run_G P A c sync rng).2 =
        sliceAssignFrom (L.G_mapping (L.ANet A) c false)
          (L.G_mapping rng.z2 c true)
          (shape1 (L.G_mapping (L.ANet A) c false)) := by
      simp [StyleGAN2Loss.run_G, if_pos hp, if_neg (not_lt.mpr hu)]
    rw [hrun, sliceAssignFrom]
    exact zipWith_take_drop_eq_left _ _ _ hlen h1 h2
  · intro hp
    simp [StyleGAN2Loss.run_G, hp]

/-- Witness for C3: the mixing case, the rejected-draw case and the
disabled case at concrete instances. -/
theorem run_G_style_mixing_cases_witness :
    ((0 : ℚ) < testLmix.style_mixing_prob ∧ testGRng.u < testLmix.style_mixing_prob ∧
      0 < (testLmix.G_mapping (testLmix.ANet testVec) testVec false).length ∧
      0 < (testLmix.G_mapping testGRng.z2 testVec false).length ∧
      ((testLmix.run_G testVec testVec testVec false testGRng).2.getD 0 []).getD 1 [] =
        ((testLmix.G_mapping testGRng.z2 testVec true).getD 0 []).getD 1 [] ∧
      ((testLmix.run_G testVec testVec testVec false testGRng).2.getD 0 []).getD 0 [] =
        ((testLmix.G_mapping (testLmix.ANet testVec) testVec false).getD 0 []).getD 0 []) ∧
    (testLmix.style_mixing_prob ≤ testGRng2.u ∧
      (testLmix.run_G testVec testVec testVec false testGRng2).2 =
        testLmix.G_mapping (testLmix.ANet testVec) testVec false) ∧
    (testLnomix.style_mixing_prob = 0 ∧
      (testLnomix.run_G testVec testVec testVec false testGRng).2 =
        testLnomix.G_mapping (testLnomix.ANet testVec) testVec false) := by
  refine ⟨⟨by decide, by decide, by decide, by decide, ?_, ?_⟩, ⟨by decide, ?_⟩, ⟨by decide, ?_⟩⟩
  · exact ((run_G_style_mixing_cases testLmix testVec testVec testVec false
      testGRng 0 1).2.1 (by decide) (by decide) (by decide) (by decide)
      (by decide)).1 (by decide)
  · exact ((run_G_style_mixing_cases testLmix testVec testVec testVec false
      testGRng 0 0).2.1 (by decide) (by decide) (by decide) (by decide)
      (by decide)).2 (by decide)
  · exact (run_G_style_mixing_cases testLmix testVec testVec testVec false
      testGRng2 0 0).2.2.1 (by decide) (by decide) (by decide) (by decide)
      (by decide)
  · exact (run_G_style_mixing_cases testLnomix testVec testVec testVec false
      testGRng 0 0).2.2.2 (by decide)

/-- C1: for every accepted phase, `accumulate_gradients` returns the 5-tuple
of scalar means `(loss_l1, loss_vgg, loss_Dreal, loss_Gmain, loss_Dgen)`; the
generator losses (`loss_l1`, `loss_vgg`, `loss_Gmain`) are computed exactly
in phases `Gmain`/`Gboth`, the discriminator losses (`loss_Dreal`,
`loss_Dgen`) exactly in phases `Dmain`/`Dboth`, and every loss whose branch
is not active in the phase (all five, for `Greg`) is returned as zero. -/
theorem accumulate_gradients_phase_losses (L : StyleGAN2Loss) (phase : String)
    (img_s img_t : Image) (ap_s ap_t pose_s pose_t real_c gen_c : Vec)
    (sync : Bool) (gain : ℚ) (rng : AccRng) (h : phase ∈ allPhases) :
    (L.accumulate_gradients phase img_s img_t ap_s ap_t pose_s pose_t real_c
        gen_c sync gain rng).map AccOut.ret
      = Except.ok
        ((if phase = "Gmain" ∨ phase = "Gboth" then
            |l1_loss img_s (L.run_G pose_s ap_s gen_c sync rng.gp1).1|
              + |l1_loss img_t (L.run_G pose_t ap_s gen_c sync rng.gp2).1| else 0),
         (if phase = "Gmain" ∨ phase = "Gboth" then
            L.vgg_loss.forward img_s (L.run_G pose_s ap_s gen_c sync rng.gp1).1
              + L.vgg_loss.forward img_s (L.run_G pose_s ap_s gen_c sync rng.gp1).1 else 0),
         (if phase = "Dmain" ∨ phase = "Dboth" then
            vmean ((vadd (L.run_D img_t real_c sync) (L.run_D img_s real_c sync)).map
              (fun q => L.fw.softplus (-q))) else 0),
         (if phase = "Gmain" ∨ phase = "Gboth" then
            vmean ((vadd (L.run_D (L.run_G pose_s ap_s gen_c sync rng.gm1).1 gen_c false)
                 (L.run_D (L.run_G pose_t ap_s gen_c sync rng.gm2).1 gen_c false)).map
              (fun q => L.fw.softplus (-q))) else 0),
         (if phase = "Dmain" ∨ phase = "Dboth" then
            vmean ((L.run_D (L.run_G pose_s ap_s gen_c false rng.dg).1 gen_c false).map
              L.fw.softplus) else 0)) := by
  simp only [allPhases, List.mem_cons, List.not_mem_nil, or_false] at h
  rcases h with h | h | h | h | h | h <;> subst h
  · simp [StyleGAN2Loss.accumulate_gradients, allPhases, gpercepBranch,
      gmainBranch, Except.map]
  · simp [StyleGAN2Loss.accumulate_gradients, allPhases, Except.map]
  · simp [StyleGAN2Loss.accumulate_gradients, allPhases, gpercepBranch,
      gmainBranch, Except.map]
  · simp [StyleGAN2Loss.accumulate_gradients, allPhases, dgenBranch,
      drealBranch, Except.map]
  · by_cases hγ : L.r1_gamma = 0 <;>
      simp [StyleGAN2Loss.accumulate_gradients, allPhases, drealBranch,
        Except.map, hγ]
  · simp [StyleGAN2Loss.accumulate_gradients, allPhases, dgenBranch,
      drealBranch, Except.map]

/-- Witness for C1 at the phase `Gmain` with concrete inputs. -/
theorem accumulate_gradients_phase_losses_witness :
    ("Gmain" ∈ allPhases) ∧
    (testL.accumulate_gradients "Gmain" testImg testImg2 testVec testVec
        testVec testVec testVec testVec false 1 testAccRng).map AccOut.ret
      = Except.ok
        ((if ("Gmain" : String) = "Gmain" ∨ ("Gmain" : String) = "Gboth" then
            |l1_loss testImg (testL.run_G testVec testVec testVec false testAccRng.gp1).1|
              + |l1_loss testImg2 (testL.run_G testVec testVec testVec false testAccRng.gp2).1| else 0),
         (if ("Gmain" : String) = "Gmain" ∨ ("Gmain" : String) = "Gboth" then
            testL.vgg_loss.forward testImg (testL.run_G testVec testVec testVec false testAccRng.gp1).1
              + testL.vgg_loss.forward testImg (testL.run_G testVec testVec testVec false testAccRng.gp1).1 else 0),
         (if ("Gmain" : String) = "Dmain" ∨ ("Gmain" : String) = "Dboth" then
            vmean ((vadd (testL.run_D testImg2 testVec false) (testL.run_D testImg testVec false)).map
              (fun q => testL.fw.softplus (-q))) else 0),
         (if ("Gmain" : String) = "Gmain" ∨ ("Gmain" : String) = "Gboth" then
            vmean ((vadd (testL.run_D (testL.run_G testVec testVec testVec false testAccRng.gm1).1 testVec false)
                 (testL.run_D (testL.run_G testVec testVec testVec false testAccRng.gm2).1 testVec false)).map
              (fun q => testL.fw.softplus (-q))) else 0),
         (if ("Gmain" : String) = "Dmain" ∨ ("Gmain" : String) = "Dboth" then
            vmean ((testL.run_D (testL.run_G testVec testVec testVec false testAccRng.dg).1 testVec false).map
              testL.fw.softplus) else 0)) :=
  ⟨by decide,
   accumulate_gradients_phase_losses testL "Gmain" testImg testImg2 testVec
     testVec testVec testVec testVec testVec false 1 testAccRng (by decide)⟩

/-- C2: the R1 term is reported (as `Loss/D/reg`) if and only if the phase is
`Dreg` or `Dboth` and `r1_gamma ≠ 0`; in that case the per-sample penalty is
the channel-and-spatial sum of the square of the two real-image gradients of
the summed real logits added together before squaring, and `loss_Dr1` is that
penalty times `r1_gamma / 2`. -/
theorem r1_regularization_term (L : StyleGAN2Loss) (phase : String)
    (img_s img_t : Image) (ap_s ap_t pose_s pose_t real_c gen_c : Vec)
    (sync : Bool) (gain : ℚ) (rng : AccRng) (h : phase ∈ allPhases) :
    (L.accumulate_gradients phase img_s img_t ap_s ap_t pose_s pose_t real_c
        gen_c sync gain rng).map (fun out => statValues out "Loss/D/reg")
      = Except.ok
        (if (phase = "Dreg" ∨ phase = "Dboth") ∧ L.r1_gamma ≠ 0 then
          [((imgAdd (L.fw.gradRealSumWrtT img_s img_t real_c)
               (L.fw.gradRealSumWrtS img_s img_t real_c)).map
              (fun s => (s.map (fun ch => (ch.map (fun v => v * v)).sum)).sum)).map
            (· * (L.r1_gamma / 2))]
         else []) := by
  simp only [allPhases, List.mem_cons, List.not_mem_nil, or_false] at h
  rcases h with h | h | h | h | h | h <;> subst h
  · simp [StyleGAN2Loss.accumulate_gradients, allPhases, gpercepBranch,
      gmainBranch, statValues, Except.map]
  · simp [StyleGAN2Loss.accumulate_gradients, allPhases, statValues, Except.map]
  · simp [StyleGAN2Loss.accumulate_gradients, allPhases, gpercepBranch,
      gmainBranch, statValues, Except.map]
  · simp [StyleGAN2Loss.accumulate_gradients, allPhases, dgenBranch,
      drealBranch, statValues, Except.map]
  · by_cases hγ : L.r1_gamma = 0 <;>
      simp [StyleGAN2Loss.accumulate_gradients, allPhases, drealBranch,
        statValues, Except.map, hγ]
  · by_cases hγ : L.r1_gamma = 0 <;>
      simp [StyleGAN2Loss.accumulate_gradients, allPhases, dgenBranch,
        drealBranch, statValues, Except.map, hγ]

/-- Witness for C2 at the phase `Dboth` (with the default `r1_gamma = 10`). -/
theorem r1_regularization_term_witness :
    ("Dboth" ∈ allPhases) ∧
    (testL.accumulate_gradients "Dboth" testImg testImg2 testVec testVec
        testVec testVec testVec testVec false 1 testAccRng).map
        (fun out => statValues out "Loss/D/reg")
      = Except.ok
        (if (("Dboth" : String) = "Dreg" ∨ ("Dboth" : String) = "Dboth") ∧ testL.r1_gamma ≠ 0 then
          [((imgAdd (testL.fw.gradRealSumWrtT testImg testImg2 testVec)
               (testL.fw.gradRealSumWrtS testImg testImg2 testVec)).map
              (fun s => (s.map (fun ch => (ch.map (fun v => v * v)).sum)).sum)).map
            (· * (testL.r1_gamma / 2))]
         else []) :=
  ⟨by decide,
   r1_regularization_term testL "Dboth" testImg testImg2 testVec testVec
     testVec testVec testVec testVec false 1 testAccRng (by decide)⟩

/-- C5: in the `Gmain`/`Gboth` phases the reported perceptual term equals
exactly twice the VGG perceptual loss between the real source image and the
generated source image; it is unchanged under any change of the real target
image, the target pose and the remaining random draws, and the first
backpropagated scalar carries the same doubled source-pair perceptual
term (the target pair enters only through the L1 term). -/
theorem perceptual_term_depends_only_on_source_pair (L : StyleGAN2Loss)
    (phase : String) (img_s img_t img_t' : Image)
    (ap_s ap_t ap_t' pose_s pose_t pose_t' real_c gen_c : Vec) (sync : Bool)
    (gain : ℚ) (rng rng' : AccRng)
    (h : phase = "Gmain" ∨ phase = "Gboth") (hg : rng'.gp1 = rng.gp1) :
    (L.accumulate_gradients phase img_s img_t ap_s ap_t pose_s pose_t real_c
        gen_c sync gain rng).map (fun out => statValues out "Loss/G/Perceptual")
      = Except.ok [[2 * L.vgg_loss.forward img_s
          (L.run_G pose_s ap_s gen_c sync rng.gp1).1]] ∧
    (L.accumulate_gradients phase img_s img_t' ap_s ap_t' pose_s pose_t' real_c
        gen_c sync gain rng').map (fun out => statValues out "Loss/G/Perceptual")
      = (L.accumulate_gradients phase img_s img_t ap_s ap_t pose_s pose_t real_c
        gen_c sync gain rng).map (fun out => statValues out "Loss/G/Perceptual") ∧
    (L.accumulate_gradients phase img_s img_t ap_s ap_t pose_s pose_t real_c
        gen_c sync gain rng).map (fun out => out.backwards.head?)
      = Except.ok (some ((|l1_loss img_s (L.run_G pose_s ap_s gen_c sync rng.gp1).1|
          + |l1_loss img_t (L.run_G pose_t ap_s gen_c sync rng.gp2).1|
          + 2 * L.vgg_loss.forward img_s (L.run_G pose_s ap_s gen_c sync rng.gp1).1)
          * gain)) := by
  rcases h with h | h <;> subst h <;>
    refine ⟨?_, ?_, ?_⟩ <;>
    simp [StyleGAN2Loss.accumulate_gradients, allPhases, gpercepBranch,
      gmainBranch, statValues, Except.map, hg, two_mul]

/-- Witness for C5 at the phase `Gmain` with two different target images,
target poses and secondary random draws. -/
theorem perceptual_term_depends_only_on_source_pair_witness :
    (("Gmain" : String) = "Gmain" ∨ ("Gmain" : String) = "Gboth") ∧
    ((testL.accumulate_gradients "Gmain" testImg testImg2 testVec testVec
        testVec testVec testVec testVec false 1 testAccRng).map
        (fun out => statValues out "Loss/G/Perceptual")
      = Except.ok [[2 * testL.vgg_loss.forward testImg
          (testL.run_G testVec testVec testVec false testAccRng.gp1).1]] ∧
    (testL.accumulate_gradients "Gmain" testImg testImg3 testVec testVec
        testVec testGRng2.z2 testVec testVec false 1 testAccRng2).map
        (fun out => statValues out "Loss/G/Perceptual")
      = (testL.accumulate_gradients "Gmain" testImg testImg2 testVec testVec
        testVec testVec testVec testVec false 1 testAccRng).map
        (fun out => statValues out "Loss/G/Perceptual") ∧
    (testL.accumulate_gradients "Gmain" testImg testImg2 testVec testVec
        testVec testVec testVec testVec false 1 testAccRng).map
        (fun out => out.backwards.head?)
      = Except.ok (some ((|l1_loss testImg (testL.run_G testVec testVec testVec false testAccRng.gp1).1|
          + |l1_loss testImg2 (testL.run_G testVec testVec testVec false testAccRng.gp2).1|
          + 2 * testL.vgg_loss.forward testImg
              (testL.run_G testVec testVec testVec false testAccRng.gp1).1) * 1))) :=
  ⟨Or.inl rfl,
   perceptual_term_depends_only_on_source_pair testL "Gmain" testImg testImg2
     testImg3 testVec testVec testVec testVec testVec testGRng2.z2 testVec
     testVec false 1 testAccRng testAccRng2 (Or.inl rfl) rfl⟩

end StylePoseGAN
